import Mathlib

/-!
# Verification of the kalpak bulk URL fetcher (src/src/kalpak.py)

Shallow embedding of the fetch-and-retry state machine, the dispatcher, the
persistence step and the configuration validation, together with proofs of the
behavioural properties stated about them.

The network, the random-number generator and the filesystem are external
environments; they are modelled as explicit oracles passed to the embedded
functions:

* `net : Nat → String → NetOutcome` gives the outcome of the HTTP request
  issued at a given 0-based attempt index against a given URL string
  (`session.get(url, ...)`, kalpak.py line 96);
* `rng : List Nat` is the stream of draws that `random.choice` consumes
  (each draw is reduced modulo the pool size);
* `FS` records which filesystem operations succeed.

Effects on those environments are returned as explicit traces (`Request`
records for network calls, logged message lists for `logging` calls), so the
theorems can speak about which requests were issued and what was logged.
-/

set_option autoImplicit false

namespace Kalpak

/-! ## URL parsing (model of `urllib.parse.urlparse` as used by the source)

`is_valid_url` (kalpak.py lines 78-83) and `get_filename_from_url` (lines
124-126) rely on CPython's `urlsplit`.  The model below reproduces the parts
the source exercises: scheme recognition (a leading ASCII letter followed by
letters, digits, `+`, `-` or `.` before the first `:`), netloc extraction
(after a leading `//`, up to the first `/`, `?` or `#`, with the mismatched
square-bracket check that raises `ValueError`), fragment/query stripping, and
the `;`-parameter split `urlparse` applies to the path.  Host validation
details beyond the bracket check (`_checknetloc`) are not modelled; the
source never exercises them with the inputs the claims are about. -/

/-- Split a character list at the first character satisfying `p`: returns
the prefix before it and the remainder starting at that character. -/
def takeUntil (p : Char → Bool) : List Char → List Char × List Char
  | [] => ([], [])
  | c :: cs =>
    if p c then ([], c :: cs)
    else
      let r := takeUntil p cs
      (c :: r.1, r.2)

/-- A character allowed in a URL scheme after the initial letter
(`scheme_chars` in CPython's `urllib.parse`). -/
def isSchemeChar (c : Char) : Bool :=
  c.isAlphanum || c = '+' || c = '-' || c = '.'

/-- Scheme recognition of `urlsplit`: if the text before the first `:` is a
nonempty ASCII letter followed by scheme characters, split it off (lowercased)
and return the remainder after the colon; otherwise the scheme is empty and
the URL is unchanged. -/
def splitScheme (url : List Char) : List Char × List Char :=
  let r := takeUntil (· = ':') url
  match r.2 with
  | ':' :: after =>
    match r.1 with
    | [] => ([], url)
    | c0 :: tail =>
      if c0.isAlpha && tail.all isSchemeChar then
        ((c0 :: tail).map Char.toLower, after)
      else ([], url)
  | _ => ([], url)

/-- Netloc extraction of `urlsplit`: if the remainder starts with `//`, the
netloc runs to the first `/`, `?` or `#`; a `[` without `]` (or vice versa) in
the netloc raises `ValueError` (modelled as `Except.error`). -/
def splitNetloc (url : List Char) : Except Unit (List Char × List Char) :=
  match url with
  | '/' :: '/' :: rest =>
    let r := takeUntil (fun c => c = '/' || c = '?' || c = '#') rest
    if (r.1.contains '[' && !r.1.contains ']')
        || (r.1.contains ']' && !r.1.contains '[') then
      Except.error ()
    else Except.ok (r.1, r.2)
  | _ => Except.ok ([], url)

/-- Strip the fragment (`#...`) and then the query (`?...`) from what remains
after scheme and netloc, leaving the path, as `urlsplit` does. -/
def stripFragmentQuery (url : List Char) : List Char :=
  (takeUntil (· = '?') (takeUntil (· = '#') url).1).1

/-- `_splitparams` of `urlparse`: when the path contains `;`, drop everything
from the first `;` at or after the last `/` (or the first `;` overall when
there is no `/`). -/
def splitParams (path : List Char) : List Char :=
  if path.contains ';' then
    if path.contains '/' then
      let afterLastSlash := (takeUntil (· = '/') path.reverse).1.reverse
      if afterLastSlash.contains ';' then
        path.take (path.length - afterLastSlash.length)
          ++ (takeUntil (· = ';') afterLastSlash).1
      else path
    else (takeUntil (· = ';') path).1
  else path

/-- The components of a parsed URL the source looks at. -/
structure UrlParts where
  scheme : List Char
  netloc : List Char
  path : List Char
  deriving Repr, DecidableEq

/-- Model of `urllib.parse.urlparse(url)` restricted to the fields the source
reads (`scheme`, `netloc`, `path`); `Except.error` is the `ValueError` raise. -/
def urlparse (url : String) : Except Unit UrlParts :=
  let s := splitScheme url.toList
  match splitNetloc s.2 with
  | Except.error e => Except.error e
  | Except.ok n =>
    Except.ok ⟨s.1, n.1, splitParams (stripFragmentQuery n.2)⟩

/-- `is_valid_url` (kalpak.py lines 78-83): parse the URL, catching
`ValueError`, and require both a nonempty scheme and a nonempty netloc
(Python truthiness of `all([result.scheme, result.netloc])`). -/
def is_valid_url (url : String) : Bool :=
  match urlparse url with
  | Except.ok r => !r.scheme.isEmpty && !r.netloc.isEmpty
  | Except.error _ => false

/-- `os.path.basename` on POSIX: the part of the path after the last `/`. -/
def basename (path : List Char) : List Char :=
  (takeUntil (· = '/') path.reverse).1.reverse

/-- `get_filename_from_url` (kalpak.py lines 124-126): basename of the parsed
path, falling back to `"downloaded_file"` when that is empty.  The `urlparse`
call is not wrapped in a `try`, so its `ValueError` propagates. -/
def get_filename_from_url (url : String) : Except Unit String :=
  match urlparse url with
  | Except.error e => Except.error e
  | Except.ok r =>
    let b := basename r.path
    if b.isEmpty then Except.ok "downloaded_file" else Except.ok (String.mk b)

/-- `os.path.join(a, b)` on POSIX for the two-argument case the source uses. -/
def path_join (a b : String) : String :=
  if b.startsWith "/" then b
  else if a = "" || a.endsWith "/" then a ++ b
  else a ++ "/" ++ b

/-! ## The Fetcher (`fetch`, kalpak.py lines 86-121) -/

/-- The fixed pool of browser identification strings (kalpak.py lines 27-32). -/
def USER_AGENTS : List String := [
  "Mozilla/5.0 (Windows NT 10.0; Win64; x64) AppleWebKit/537.36 (KHTML, like Gecko) Chrome/91.0.4472.124 Safari/537.36",
  "Mozilla/5.0 (Macintosh; Intel Mac OS X 10_15_7) AppleWebKit/537.36 (KHTML, like Gecko) Chrome/91.0.4472.124 Safari/537.36",
  "Mozilla/5.0 (Windows NT 10.0; Win64; x64; rv:89.0) Gecko/20100101 Firefox/89.0",
  "Mozilla/5.0 (Macintosh; Intel Mac OS X 10.15; rv:89.0) Gecko/20100101 Firefox/89.0"
]

/-- What one `session.get` call yields, as the `fetch` code observes it:
either a response (status code, optional `Location` header, body bytes), or an
exception of one of the two classes the code distinguishes.  `netError`
stands for the caught tuple `ClientConnectorError / ServerTimeoutError /
ClientResponseError / ClientError / asyncio.TimeoutError` (lines 111-117);
`otherError` stands for any other `Exception` (line 119). -/
inductive NetOutcome where
  | response (status : Nat) (location : Option String) (body : List Nat)
  | netError
  | otherError
  deriving Repr, DecidableEq

/-- One network request as issued by `fetch`: the 0-based loop index, the
working URL passed to `session.get` (which Python lets become `None` after a
`Location`-less redirect), and the headers the request carries. -/
structure Request where
  attempt : Nat
  url : Option String
  userAgent : String
  hasRange : Bool
  deriving Repr, DecidableEq

/-- `session.get` against the network oracle.  Calling it with the working
URL equal to `None` raises a `TypeError` inside aiohttp before any I/O, which
the code's generic `except Exception` branch catches: modelled as
`otherError`. -/
def sessionGet (net : Nat → String → NetOutcome) (attempt : Nat) :
    Option String → NetOutcome
  | none => NetOutcome.otherError
  | some u => net attempt u

/-- The body of `for attempt in range(retries)` (kalpak.py lines 93-120),
with `fuel` the number of loop iterations left and `attempt` the current
index.  Returns the value of the `fetch` call (`Optional[bytes]`) together
with the list of requests issued.

* status 200: read body, return it (line 97-100);
* status 301/302/303: the working URL becomes `response.headers.get("Location")`
  and the loop moves to the next iteration — when the header is present the
  code logs and `continue`s, when it is absent (`if url:` false) control falls
  off the end of the loop body, which reaches the same next iteration
  (lines 101-105);
* any other status: log and `break` (lines 106-110);
* either exception class: log and fall through to the next iteration
  (lines 111-120);
* loop exhausted: return `None` (line 121). -/
def fetchLoop (net : Nat → String → NetOutcome) (ua : String) (hasRange : Bool) :
    Nat → Nat → Option String → Option (List Nat) × List Request
  | 0, _, _ => (none, [])
  | fuel + 1, attempt, url =>
    let req : Request := ⟨attempt, url, ua, hasRange⟩
    match sessionGet net attempt url with
    | NetOutcome.response status loc body =>
      if status = 200 then (some body, [req])
      else if status = 301 ∨ status = 302 ∨ status = 303 then
        let next := fetchLoop net ua hasRange fuel (attempt + 1) loc
        (next.1, req :: next.2)
      else (none, [req])
    | NetOutcome.netError =>
      let next := fetchLoop net ua hasRange fuel (attempt + 1) url
      (next.1, req :: next.2)
    | NetOutcome.otherError =>
      let next := fetchLoop net ua hasRange fuel (attempt + 1) url
      (next.1, req :: next.2)

/-- The single `random.choice(USER_AGENTS)` draw `fetch` performs (line 89):
one element is consumed from the RNG stream and reduced modulo the pool
size. -/
def chooseAgent (rng : List Nat) : String :=
  (USER_AGENTS.get? (rng.headD 0 % USER_AGENTS.length)).getD ""

/-- `fetch(url, session, retries, resume)` (kalpak.py lines 86-121).  The
`User-Agent` header is chosen once, before the retry loop; when `resume` is
set a `Range: bytes=0-` header is added.  Returns the `Optional[bytes]`
result and the trace of requests issued. -/
def fetch (url : String) (net : Nat → String → NetOutcome) (rng : List Nat)
    (retries : Nat) (resume : Bool) : Option (List Nat) × List Request :=
  fetchLoop net (chooseAgent rng) resume retries 0 (some url)

/-! ## Persistence (`save_to_directory`, kalpak.py lines 129-150) -/

/-- Filesystem oracle: whether the output directory already exists
(`os.path.exists`), whether `os.makedirs` succeeds, and whether the
`open`/`write` for a given file path succeeds. -/
structure FS where
  dirExists : Bool
  mkdirOk : Bool
  writeOk : String → Bool

/-- Observable outcome of `save_to_directory`: whether the directory was
created, the error messages logged, and the `(file_path, content)` pairs
actually written. -/
structure SaveTrace where
  created : Bool
  errors : List String
  written : List (String × List Nat)
  deriving Repr, DecidableEq

/-- The `for url, content in data.items()` loop of `save_to_directory`
(lines 140-150): each item's filename is computed (an exception there would
propagate, hence the `Except`), and the write is attempted inside its own
`try`, logging and moving on when it fails. -/
def saveLoop (output_dir : String) (fs : FS) :
    List (String × List Nat) → Except Unit (List (String × List Nat) × List String)
  | [] => Except.ok ([], [])
  | (url, content) :: rest =>
    match get_filename_from_url url with
    | Except.error e => Except.error e
    | Except.ok filename =>
      let file_path := path_join output_dir filename
      match saveLoop output_dir fs rest with
      | Except.error e => Except.error e
      | Except.ok r =>
        if fs.writeOk file_path then
          Except.ok ((file_path, content) :: r.1, r.2)
        else
          Except.ok (r.1, ("Failed to save content to " ++ file_path) :: r.2)

/-- `save_to_directory(data, output_dir)` (kalpak.py lines 129-150): when the
directory does not exist it is created, and a creation failure is logged and
makes the function `return` without touching any item (lines 130-138);
otherwise each item is written independently. -/
def save_to_directory (data : List (String × List Nat)) (output_dir : String)
    (fs : FS) : Except Unit SaveTrace :=
  if !fs.dirExists && !fs.mkdirOk then
    Except.ok ⟨false, ["Failed to create directory " ++ output_dir], []⟩
  else
    match saveLoop output_dir fs data with
    | Except.error e => Except.error e
    | Except.ok r => Except.ok ⟨!fs.dirExists, r.2, r.1⟩

/-! ## The Dispatcher (`download_urls`, kalpak.py lines 153-181) -/

/-- Python's `dict(results)` built from a pair list: first-occurrence key
order, later values for a repeated key overwrite earlier ones. -/
def upsert (m : List (String × List Nat)) (k : String) (v : List Nat) :
    List (String × List Nat) :=
  match m with
  | [] => [(k, v)]
  | (k0, v0) :: rest => if k0 = k then (k0, v) :: rest else (k0, v0) :: upsert rest k v

/-- `dict(results)` (kalpak.py line 180). -/
def dictOf (pairs : List (String × List Nat)) : List (String × List Nat) :=
  pairs.foldl (fun m p => upsert m p.1 p.2) []

/-- The `for url, task in zip(valid_urls, tasks): content = await task` loop
(kalpak.py lines 171-178).  The list comprehension on line 165 builds bare
coroutine objects, so each `fetch` body — including its `random.choice` draw —
runs only when awaited, strictly one task at a time and in list order; the
RNG stream is therefore threaded sequentially, one draw per fetch.  Returns
the `(url, content)` success pairs, the URLs whose fetch failed (logged on
line 177), and every network request issued, tagged with the original URL of
the fetch invocation that issued it. -/
def runFetches (net : Nat → String → NetOutcome) (retries : Nat) (resume : Bool) :
    List String → List Nat →
    List (String × List Nat) × List String × List (String × Request)
  | [], _ => ([], [], [])
  | url :: rest, rng =>
    let f := fetch url net rng retries resume
    let r := runFetches net retries resume rest (rng.drop 1)
    match f.1 with
    | some content => ((url, content) :: r.1, r.2.1, f.2.map (url, ·) ++ r.2.2)
    | none => (r.1, url :: r.2.1, f.2.map (url, ·) ++ r.2.2)

/-- Observable outcome of one `download_urls` run. -/
structure DispatchResult where
  /-- `valid_urls` (line 158): the URLs a fetch task is launched for. -/
  valid_urls : List String
  /-- `invalid_urls` (line 159). -/
  invalid_urls : List String
  /-- The warnings logged for skipped invalid URLs (line 162). -/
  invalidWarnings : List String
  /-- Every network request of the run, tagged with the original URL of the
  fetch invocation that issued it. -/
  requests : List (String × Request)
  /-- The `(url, content)` pairs appended to `results` (line 174). -/
  results : List (String × List Nat)
  /-- URLs whose fetch returned `None` (logged on line 177). -/
  failedLogged : List String
  /-- For each network request event, the number of fetch operations
  concurrently awaiting network I/O at that moment.  The coroutines in
  `tasks` are awaited strictly one at a time (lines 171-172), so exactly one
  fetch is in flight whenever a request is outstanding. -/
  concurrencySamples : List Nat
  /-- Result of the terminal `save_to_directory` call (line 181). -/
  save : Except Unit SaveTrace

/-- `download_urls(urls, output_dir, retries, max_connections, resume)`
(kalpak.py lines 153-181).  The `TCPConnector(limit=max_connections)` bound
caps physically outstanding connections; it does not otherwise change any
observable result, and since the tasks are awaited sequentially it is never
the binding constraint. -/
def download_urls (urls : List String) (output_dir : String) (retries : Nat)
    (max_connections : Nat) (resume : Bool) (net : Nat → String → NetOutcome)
    (rng : List Nat) (fs : FS) : DispatchResult :=
  let valid_urls := urls.filter (fun u => is_valid_url u)
  let invalid_urls := urls.filter (fun u => !is_valid_url u)
  let r := runFetches net retries resume valid_urls rng
  let downloaded_content := dictOf r.1
  { valid_urls := valid_urls
    invalid_urls := invalid_urls
    invalidWarnings := invalid_urls.map (fun u => "Invalid URL skipped: " ++ u)
    requests := r.2.2
    results := r.1
    failedLogged := r.2.1.map (fun u => "Failed to fetch content from " ++ u)
    concurrencySamples := r.2.2.map (fun _ => 1)
    save := save_to_directory downloaded_content output_dir fs }

/-! ## Configuration validation (`validate_args` / `parse_args` / `main`,
kalpak.py lines 196-299) -/

/-- The argparse fields the validated flow reads.  `retries` and
`max_connections` come from `type=int` flags, so they can be negative. -/
structure Args where
  retries : Int
  max_connections : Int
  resume : Bool
  dest : String

/-- `validate_args` (kalpak.py lines 196-203). -/
def validate_args (args : Args) : Bool :=
  if args.retries < 1 then false
  else if args.max_connections < 1 then false
  else true

/-- The tail of `parse_args` (kalpak.py lines 248-252): on validation failure
the process exits with status 1 (`sys.exit(1)`), modelled as `Except.error`. -/
def parse_args (args : Args) : Except Nat Args :=
  if !validate_args args then Except.error 1 else Except.ok args

/-- The part of `main` (kalpak.py lines 255-299) relevant to configuration:
`parse_args` runs first, and only a validated configuration reaches
`asyncio.run(download_urls(...))`.  Python's `range` over a non-positive int
is empty, matching `Int.toNat`. -/
def mainRun (args : Args) (urls : List String) (net : Nat → String → NetOutcome)
    (rng : List Nat) (fs : FS) : Except Nat DispatchResult :=
  match parse_args args with
  | Except.error code => Except.error code
  | Except.ok a =>
    Except.ok (download_urls urls a.dest a.retries.toNat a.max_connections.toNat
      a.resume net rng fs)

/-- The network requests a (possibly aborted) run issues: a run that exits
during argument parsing never reaches `download_urls`, so it issues none. -/
def networkCallsOf : Except Nat DispatchResult → List (String × Request)
  | Except.error _ => []
  | Except.ok d => d.requests

/-! ## Helper lemmas about the retry loop -/

/-- When every attempt against `u` yields a network-class error, the loop
consumes all its remaining iterations, issues one request per iteration, and
ends with `None`. -/
lemma fetchLoop_netError (net : Nat → String → NetOutcome) (ua : String)
    (hr : Bool) (u : String) (h : ∀ k, net k u = NetOutcome.netError) :
    ∀ fuel start, (fetchLoop net ua hr fuel start (some u)).1 = none ∧
      (fetchLoop net ua hr fuel start (some u)).2.length = fuel := by
  intro fuel
  induction fuel with
  | zero => intro start; simp [fetchLoop]
  | succ n ih =>
    intro start
    simp only [fetchLoop, sessionGet, h start]
    simpa using ih (start + 1)

/-- Once the working URL is `None`, every remaining iteration raises inside
`session.get` and is caught by the generic handler: the loop runs all
remaining iterations against `None` and ends with `None`. -/
lemma fetchLoop_noneUrl (net : Nat → String → NetOutcome) (ua : String)
    (hr : Bool) :
    ∀ fuel start, (fetchLoop net ua hr fuel start none).1 = none ∧
      (fetchLoop net ua hr fuel start none).2.length = fuel ∧
      ∀ r ∈ (fetchLoop net ua hr fuel start none).2, r.url = none := by
  intro fuel
  induction fuel with
  | zero => intro start; simp [fetchLoop]
  | succ n ih =>
    intro start
    obtain ⟨h1, h2, h3⟩ := ih (start + 1)
    simp only [fetchLoop, sessionGet]
    refine ⟨h1, by simpa using h2, ?_⟩
    intro r hmem
    rcases List.mem_cons.1 hmem with h | h
    · simp [h]
    · exact h3 r h

/-- A chain of consecutive redirects, each carrying a `Location` header,
consumes one loop iteration per hop: a chain as long as the remaining budget
exhausts it and the loop ends with `None`, one request per hop. -/
lemma fetchLoop_redirect_chain (net : Nat → String → NetOutcome) (ua : String)
    (hr : Bool) :
    ∀ fuel start (chain : Nat → String) (st : Nat → Nat) (body : Nat → List Nat),
      (∀ k, k < fuel →
        (st k = 301 ∨ st k = 302 ∨ st k = 303) ∧
          net (start + k) (chain k) =
            NetOutcome.response (st k) (some (chain (k + 1))) (body k)) →
      (fetchLoop net ua hr fuel start (some (chain 0))).1 = none ∧
        (fetchLoop net ua hr fuel start (some (chain 0))).2.length = fuel := by
  intro fuel
  induction fuel with
  | zero => intro start chain st body _; simp [fetchLoop]
  | succ n ih =>
    intro start chain st body h
    obtain ⟨hst, hnet⟩ := h 0 (Nat.succ_pos n)
    have h200 : ¬ st 0 = 200 := by rcases hst with h' | h' | h' <;> omega
    have ihs := ih (start + 1) (fun k => chain (k + 1)) (fun k => st (k + 1))
      (fun k => body (k + 1)) ?_
    · rw [Nat.add_zero] at hnet
      simp only [fetchLoop, sessionGet, hnet]
      rw [if_neg h200, if_pos hst]
      exact ⟨ihs.1, by simpa using ihs.2⟩
    · intro k hk
      have := h (k + 1) (by omega)
      refine ⟨this.1, ?_⟩
      have harith : start + (k + 1) = start + 1 + k := by omega
      rw [harith] at this
      exact this.2

/-- Iterations whose attempt yields a network-class error keep the working
URL and move on: a prefix of `m` such iterations reduces the remaining budget
by `m` and advances the attempt index by `m`, without changing the eventual
result. -/
lemma fetchLoop_netError_skips (net : Nat → String → NetOutcome) (ua : String)
    (hr : Bool) (u : String) :
    ∀ m fuel start, m ≤ fuel →
      (∀ j, j < m → net (start + j) u = NetOutcome.netError) →
      (fetchLoop net ua hr fuel start (some u)).1 =
        (fetchLoop net ua hr (fuel - m) (start + m) (some u)).1 := by
  intro m
  induction m with
  | zero => intro fuel start _ _; simp
  | succ p ih =>
    intro fuel start hle h
    obtain ⟨f, rfl⟩ : ∃ f, fuel = f + 1 := ⟨fuel - 1, by omega⟩
    have h0 := h 0 (Nat.succ_pos p)
    rw [Nat.add_zero] at h0
    simp only [fetchLoop, sessionGet, h0]
    have e1 : f + 1 - (p + 1) = f - p := by omega
    have e2 : start + (p + 1) = start + 1 + p := by omega
    rw [e1, e2]
    exact ih f (start + 1) (by omega) (fun j hj => by
      have := h (j + 1) (by omega)
      rwa [show start + (j + 1) = start + 1 + j by omega] at this)

/-- A redirect hop (with `Location`) followed immediately by a status-200
response returns that response's body, provided at least two iterations of
budget remain. -/
lemma fetchLoop_redirect_then_200 (net : Nat → String → NetOutcome)
    (ua : String) (hr : Bool) (u T : String) (B b0 : List Nat)
    (lT : Option String) (st start : Nat)
    (hst : st = 301 ∨ st = 302 ∨ st = 303)
    (h1 : net start u = NetOutcome.response st (some T) b0)
    (h2 : net (start + 1) T = NetOutcome.response 200 lT B) :
    ∀ fuel, 2 ≤ fuel →
      (fetchLoop net ua hr fuel start (some u)).1 = some B := by
  intro fuel hf
  obtain ⟨f, rfl⟩ : ∃ f, fuel = f + 1 + 1 := ⟨fuel - 2, by omega⟩
  have h200 : ¬ st = 200 := by rcases hst with h' | h' | h' <;> omega
  simp only [fetchLoop, sessionGet, h1]
  rw [if_neg h200, if_pos hst]
  simp only [fetchLoop, sessionGet, h2]
  simp

/-- Every request the retry loop issues carries the `User-Agent` value fixed
before the loop started. -/
lemma fetchLoop_userAgent (net : Nat → String → NetOutcome) (ua : String)
    (hr : Bool) :
    ∀ fuel start url r, r ∈ (fetchLoop net ua hr fuel start url).2 →
      r.userAgent = ua := by
  intro fuel
  induction fuel with
  | zero => intro start url r h; simp [fetchLoop] at h
  | succ n ih =>
    intro start url r h
    rcases hE : sessionGet net start url with ⟨st, loc, body⟩ | _ | _ <;>
      simp only [fetchLoop, hE] at h
    · split at h
      · simp at h; rw [h]
      · split at h
        · simp only [List.mem_cons] at h
          rcases h with h' | h'
          · rw [h']
          · exact ih (start + 1) loc r h'
        · simp at h; rw [h]
    · simp only [List.mem_cons] at h
      rcases h with h' | h'
      · rw [h']
      · exact ih (start + 1) url r h'
    · simp only [List.mem_cons] at h
      rcases h with h' | h'
      · rw [h']
      · exact ih (start + 1) url r h'

/-- Every request recorded by the dispatcher loop is tagged with one of the
URLs the loop was launched on. -/
lemma runFetches_origin (net : Nat → String → NetOutcome) (retries : Nat)
    (resume : Bool) :
    ∀ l rng p, p ∈ (runFetches net retries resume l rng).2.2 → p.1 ∈ l := by
  intro l
  induction l with
  | nil => intro rng p h; simp [runFetches] at h
  | cons url rest ih =>
    intro rng p h
    simp only [runFetches] at h
    rcases hf : (fetch url net rng retries resume).1 with _ | content <;>
      rw [hf] at h <;> simp only [List.mem_append, List.mem_map] at h
    · rcases h with ⟨r, _, hp⟩ | h
      · rw [← hp]; exact List.mem_cons_self _ _
      · exact List.mem_cons_of_mem _ (ih _ p h)
    · rcases h with ⟨r, _, hp⟩ | h
      · rw [← hp]; exact List.mem_cons_self _ _
      · exact List.mem_cons_of_mem _ (ih _ p h)

/-- Itemwise independence of the persistence loop: when every key's filename
resolves, the loop returns normally and each item is written exactly when its
own write succeeds, with a logged error otherwise — regardless of what
happens to the other items. -/
lemma saveLoop_itemwise (output_dir : String) (fs : FS) :
    ∀ data, (∀ p ∈ data, ∃ f, get_filename_from_url p.1 = Except.ok f) →
      ∃ w e, saveLoop output_dir fs data = Except.ok (w, e) ∧
        ∀ p ∈ data, ∀ f, get_filename_from_url p.1 = Except.ok f →
          (fs.writeOk (path_join output_dir f) = true →
            (path_join output_dir f, p.2) ∈ w) ∧
          (fs.writeOk (path_join output_dir f) = false →
            ("Failed to save content to " ++ path_join output_dir f) ∈ e) := by
  intro data
  induction data with
  | nil => intro _; exact ⟨[], [], rfl, by simp⟩
  | cons hd tl ih =>
    intro hall
    obtain ⟨f0, hf0⟩ := hall hd (List.mem_cons_self _ _)
    obtain ⟨w, e, hrec, hmem⟩ := ih (fun p hp => hall p (List.mem_cons_of_mem _ hp))
    obtain ⟨url, content⟩ := hd
    rcases hw : fs.writeOk (path_join output_dir f0) with _ | _
    · refine ⟨w, ("Failed to save content to " ++ path_join output_dir f0) :: e,
        ?_, ?_⟩
      · simp [saveLoop, hf0, hrec, hw]
      · intro p hp f hf
        rcases List.mem_cons.1 hp with h | h
        · rw [h] at hf
          have : f = f0 := by
            rw [hf0] at hf; exact (Except.ok.inj hf).symm
          subst this
          exact ⟨fun ht => absurd ht (by rw [hw]; simp),
            fun _ => List.mem_cons_self _ _⟩
        · obtain ⟨h1, h2⟩ := hmem p h f hf
          exact ⟨h1, fun hx => List.mem_cons_of_mem _ (h2 hx)⟩
    · refine ⟨(path_join output_dir f0, content) :: w, e, ?_, ?_⟩
      · simp [saveLoop, hf0, hrec, hw]
      · intro p hp f hf
        rcases List.mem_cons.1 hp with h | h
        · rw [h] at hf
          have : f = f0 := by
            rw [hf0] at hf; exact (Except.ok.inj hf).symm
          subst this
          refine ⟨fun _ => ?_, fun hx => absurd hx (by rw [hw]; simp)⟩
          rw [h]
          exact List.mem_cons_self _ _
        · obtain ⟨h1, h2⟩ := hmem p h f hf
          exact ⟨fun hx => List.mem_cons_of_mem _ (h1 hx), h2⟩

/-! ## The claims -/

/-- C1: for every `retries` value `N ≥ 1`, a `fetch` invocation on a URL for
which every request attempt raises a network-class error performs exactly `N`
attempts (one request per attempt, no early exit) and then returns `None`. -/
theorem C1_all_network_errors_exhaust_retries (url : String)
    (net : Nat → String → NetOutcome) (rng : List Nat) (N : Nat) (resume : Bool)
    (hN : 1 ≤ N) (h : ∀ k, net k url = NetOutcome.netError) :
    (fetch url net rng N resume).1 = none ∧
      (fetch url net rng N resume).2.length = N :=
  fetchLoop_netError net (chooseAgent rng) resume url h N 0

/-- Witness for C1 at `N = 3`. -/
theorem C1_all_network_errors_exhaust_retries_witness :
    (fetch "http://a.test/x" (fun _ _ => NetOutcome.netError) [0] 3 false).1 = none ∧
      (fetch "http://a.test/x" (fun _ _ => NetOutcome.netError) [0] 3 false).2.length = 3 :=
  C1_all_network_errors_exhaust_retries "http://a.test/x"
    (fun _ _ => NetOutcome.netError) [0] 3 false (by decide) (fun _ => rfl)

/-- C2: a redirect (301/302/303 with a `Location` header) increments the
attempt counter exactly as a retryable error does, so a chain of `N`
consecutive redirects exhausts the budget: `fetch` returns `None` having
issued exactly `N` requests, none beyond the chain. -/
theorem C2_redirect_chain_exhausts_budget (url : String)
    (net : Nat → String → NetOutcome) (rng : List Nat) (N : Nat) (resume : Bool)
    (chain : Nat → String) (st : Nat → Nat) (body : Nat → List Nat)
    (h0 : chain 0 = url) (hN : 1 ≤ N)
    (h : ∀ k, k < N → (st k = 301 ∨ st k = 302 ∨ st k = 303) ∧
        net k (chain k) = NetOutcome.response (st k) (some (chain (k + 1))) (body k)) :
    (fetch url net rng N resume).1 = none ∧
      (fetch url net rng N resume).2.length = N := by
  subst h0
  exact fetchLoop_redirect_chain net (chooseAgent rng) resume N 0 chain st body
    (fun k hk => by simpa using h k hk)

/-- Witness for C2: a URL that 302-redirects to itself on both of `N = 2`
attempts. -/
theorem C2_redirect_chain_exhausts_budget_witness :
    (fetch "http://r.test/a"
        (fun _ _ => NetOutcome.response 302 (some "http://r.test/a") []) [0] 2 false).1
        = none ∧
      (fetch "http://r.test/a"
        (fun _ _ => NetOutcome.response 302 (some "http://r.test/a") []) [0] 2 false).2.length
        = 2 :=
  C2_redirect_chain_exhausts_budget "http://r.test/a"
    (fun _ _ => NetOutcome.response 302 (some "http://r.test/a") []) [0] 2 false
    (fun _ => "http://r.test/a") (fun _ => 302) (fun _ => []) rfl (by decide)
    (fun _ _ => ⟨Or.inr (Or.inl rfl), rfl⟩)

/-- C4: a response whose status is neither 2xx nor 3xx (e.g. 404) on the
first attempt makes `fetch` return `None` after exactly one attempt: the
`else` branch breaks out of the retry loop immediately. -/
theorem C4_fatal_status_immediate_failure (url : String)
    (net : Nat → String → NetOutcome) (rng : List Nat) (N : Nat) (resume : Bool)
    (c : Nat) (loc : Option String) (body : List Nat)
    (hN : 1 ≤ N) (hc : ¬ (200 ≤ c ∧ c < 400))
    (h : net 0 url = NetOutcome.response c loc body) :
    (fetch url net rng N resume).1 = none ∧
      (fetch url net rng N resume).2.length = 1 := by
  obtain ⟨f, rfl⟩ : ∃ f, N = f + 1 := ⟨N - 1, by omega⟩
  have h200 : ¬ c = 200 := by omega
  have hred : ¬ (c = 301 ∨ c = 302 ∨ c = 303) := by omega
  simp only [fetch, fetchLoop, sessionGet, h]
  rw [if_neg h200, if_neg hred]
  simp

/-- Witness for C4 at status 404 and `N = 3`. -/
theorem C4_fatal_status_immediate_failure_witness :
    (fetch "http://a.test/x" (fun _ _ => NetOutcome.response 404 none []) [0] 3 false).1
        = none ∧
      (fetch "http://a.test/x" (fun _ _ => NetOutcome.response 404 none []) [0] 3 false).2.length
        = 1 :=
  C4_fatal_status_immediate_failure "http://a.test/x"
    (fun _ _ => NetOutcome.response 404 none []) [0] 3 false 404 none []
    (by decide) (by decide) rfl

/-- C10: a redirect status whose `Location` header is absent neither breaks
out of the retry loop nor returns `Failure` immediately: the working URL
becomes `None`, every remaining attempt requests `None` (raising inside
`session.get`, caught by the error branches), and `None` is returned only
after all `N` attempts are consumed. -/
theorem C10_redirect_without_location_falls_through (url : String)
    (net : Nat → String → NetOutcome) (rng : List Nat) (N : Nat) (resume : Bool)
    (c : Nat) (body : List Nat)
    (hc : c = 301 ∨ c = 302 ∨ c = 303)
    (h : net 0 url = NetOutcome.response c none body) (hN : 1 ≤ N) :
    (fetch url net rng N resume).1 = none ∧
      (fetch url net rng N resume).2.length = N ∧
      ∀ r ∈ (fetch url net rng N resume).2.tail, r.url = none := by
  obtain ⟨f, rfl⟩ : ∃ f, N = f + 1 := ⟨N - 1, by omega⟩
  have h200 : ¬ c = 200 := by rcases hc with h' | h' | h' <;> omega
  simp only [fetch, fetchLoop, sessionGet, h]
  rw [if_neg h200, if_pos hc]
  obtain ⟨g1, g2, g3⟩ := fetchLoop_noneUrl net (chooseAgent rng) resume f 1
  refine ⟨g1, by simpa using g2, ?_⟩
  intro r hr
  exact g3 r (by simpa using hr)

/-- Witness for C10: a 301 without `Location` at `N = 3` consumes all three
attempts, the last two against a `None` URL. -/
theorem C10_redirect_without_location_falls_through_witness :
    (fetch "http://a.test/x" (fun _ _ => NetOutcome.response 301 none []) [0] 3 false).1
        = none ∧
      (fetch "http://a.test/x" (fun _ _ => NetOutcome.response 301 none []) [0] 3 false).2.length
        = 3 ∧
      ∀ r ∈ (fetch "http://a.test/x"
          (fun _ _ => NetOutcome.response 301 none []) [0] 3 false).2.tail,
        r.url = none :=
  C10_redirect_without_location_falls_through "http://a.test/x"
    (fun _ _ => NetOutcome.response 301 none []) [0] 3 false 301 []
    (Or.inl rfl) rfl (by decide)

/-- C3: a redirect on attempt `k` (`k < N - 1`, the earlier attempts having
raised retryable errors) followed by a 200 on attempt `k + 1` makes `fetch`
return the body, and the dispatcher inserts the result keyed by the
*original* input URL, not the redirect target. -/
theorem C3_redirect_then_success_keyed_by_original (url T : String)
    (B b0 : List Nat) (lT : Option String) (net : Nat → String → NetOutcome)
    (rng : List Nat) (N k st max_connections : Nat) (resume : Bool)
    (output_dir : String) (fs : FS)
    (hvalid : is_valid_url url = true)
    (hk : k < N - 1)
    (hst : st = 301 ∨ st = 302 ∨ st = 303)
    (herr : ∀ j, j < k → net j url = NetOutcome.netError)
    (hred : net k url = NetOutcome.response st (some T) b0)
    (h200 : net (k + 1) T = NetOutcome.response 200 lT B)
    (hT : T ≠ url) :
    (fetch url net rng N resume).1 = some B ∧
      (download_urls [url] output_dir N max_connections resume net rng fs).results
        = [(url, B)] := by
  have hfetch : (fetch url net rng N resume).1 = some B := by
    unfold fetch
    rw [fetchLoop_netError_skips net (chooseAgent rng) resume url k N 0
      (by omega) (fun j hj => by simpa using herr j hj)]
    rw [Nat.zero_add]
    exact fetchLoop_redirect_then_200 net (chooseAgent rng) resume url T B b0 lT
      st k hst hred h200 (N - k) (by omega)
  refine ⟨hfetch, ?_⟩
  simp [download_urls, runFetches, List.filter_cons, hvalid, hfetch]

/-- Witness for C3: `k = 0`, `N = 3`, a 302 from the input URL to a target
that then answers 200. -/
theorem C3_redirect_then_success_keyed_by_original_witness :
    (fetch "http://a.test/x"
        (fun _ u => if u = "http://a.test/x"
          then NetOutcome.response 302 (some "http://b.test/y") []
          else NetOutcome.response 200 none [7, 8]) [0] 3 false).1 = some [7, 8] ∧
      (download_urls ["http://a.test/x"] "out" 3 10 false
        (fun _ u => if u = "http://a.test/x"
          then NetOutcome.response 302 (some "http://b.test/y") []
          else NetOutcome.response 200 none [7, 8]) [0]
        ⟨true, true, fun _ => true⟩).results = [("http://a.test/x", [7, 8])] :=
  C3_redirect_then_success_keyed_by_original "http://a.test/x" "http://b.test/y"
    [7, 8] [] none
    (fun _ u => if u = "http://a.test/x"
      then NetOutcome.response 302 (some "http://b.test/y") []
      else NetOutcome.response 200 none [7, 8]) [0] 3 0 302 10 false "out"
    ⟨true, true, fun _ => true⟩ (by decide) (by decide) (Or.inr (Or.inl rfl))
    (fun j hj => absurd hj (Nat.not_lt_zero j)) (by decide) (by decide) (by decide)

/-- C5: the dispatcher launches fetch tasks exactly for the URLs satisfying
the validity predicate; a URL lacking a scheme or netloc is never among them,
every issued request originates from a valid URL, and invalid input entries
are logged as skipped. -/
theorem C5_invalid_urls_never_fetched (urls : List String) (output_dir : String)
    (retries max_connections : Nat) (resume : Bool)
    (net : Nat → String → NetOutcome) (rng : List Nat) (fs : FS) (u : String)
    (hu : is_valid_url u = false) :
    (download_urls urls output_dir retries max_connections resume net rng fs).valid_urls
        = urls.filter (fun x => is_valid_url x) ∧
      u ∉ (download_urls urls output_dir retries max_connections resume net rng fs).valid_urls ∧
      (∀ p ∈ (download_urls urls output_dir retries max_connections resume net rng fs).requests,
        is_valid_url p.1 = true) ∧
      (u ∈ urls →
        ("Invalid URL skipped: " ++ u) ∈
          (download_urls urls output_dir retries max_connections resume net rng fs).invalidWarnings) := by
  refine ⟨rfl, ?_, ?_, ?_⟩
  · intro hmem
    have := (List.mem_filter.1 hmem).2
    rw [hu] at this
    exact absurd this (by simp)
  · intro p hp
    have : p.1 ∈ urls.filter (fun x => is_valid_url x) :=
      runFetches_origin net retries resume _ rng p hp
    exact (List.mem_filter.1 this).2
  · intro hmem
    have hinv : u ∈ urls.filter (fun x => !is_valid_url x) :=
      List.mem_filter.2 ⟨hmem, by simp [hu]⟩
    exact List.mem_map.2 ⟨u, hinv, rfl⟩

/-- Witness for C5 on the spec's example input: `"not a url"` is skipped. -/
theorem C5_invalid_urls_never_fetched_witness :
    (download_urls ["http://a.test/x.bin", "not a url", "http://a.test/y.bin"]
        "out" 3 2 false (fun _ _ => NetOutcome.response 200 none [1]) [0]
        ⟨true, true, fun _ => true⟩).valid_urls
        = (["http://a.test/x.bin", "not a url", "http://a.test/y.bin"] :
            List String).filter (fun x => is_valid_url x) ∧
      "not a url" ∉ (download_urls
        ["http://a.test/x.bin", "not a url", "http://a.test/y.bin"]
        "out" 3 2 false (fun _ _ => NetOutcome.response 200 none [1]) [0]
        ⟨true, true, fun _ => true⟩).valid_urls ∧
      (∀ p ∈ (download_urls
          ["http://a.test/x.bin", "not a url", "http://a.test/y.bin"]
          "out" 3 2 false (fun _ _ => NetOutcome.response 200 none [1]) [0]
          ⟨true, true, fun _ => true⟩).requests, is_valid_url p.1 = true) ∧
      ("not a url" ∈ ["http://a.test/x.bin", "not a url", "http://a.test/y.bin"] →
        ("Invalid URL skipped: " ++ "not a url") ∈ (download_urls
          ["http://a.test/x.bin", "not a url", "http://a.test/y.bin"]
          "out" 3 2 false (fun _ _ => NetOutcome.response 200 none [1]) [0]
          ⟨true, true, fun _ => true⟩).invalidWarnings) :=
  C5_invalid_urls_never_fetched
    ["http://a.test/x.bin", "not a url", "http://a.test/y.bin"] "out" 3 2 false
    (fun _ _ => NetOutcome.response 200 none [1]) [0]
    ⟨true, true, fun _ => true⟩ "not a url" (by decide)

/-- C6: with `maxConnections = M ≥ 1` and at least `M` valid input URLs, no
request event of the run ever observes more than `M` fetch operations
concurrently awaiting network I/O.  In the source the coroutines built on
line 165 are awaited strictly one at a time (lines 171-172), so every request
event observes exactly one fetch in flight, which the `TCPConnector` bound
`M ≥ 1` always accommodates. -/
theorem C6_connection_bound_never_exceeded (urls : List String)
    (output_dir : String) (retries max_connections : Nat) (resume : Bool)
    (net : Nat → String → NetOutcome) (rng : List Nat) (fs : FS)
    (hM : 1 ≤ max_connections)
    (hsize : max_connections ≤ (urls.filter (fun u => is_valid_url u)).length) :
    ∀ c ∈ (download_urls urls output_dir retries max_connections resume net rng
        fs).concurrencySamples, c ≤ max_connections := by
  intro c hc
  simp only [download_urls, List.mem_map] at hc
  obtain ⟨_, _, hc1⟩ := hc
  omega

/-- Witness for C6 at `M = 1` with one valid URL. -/
theorem C6_connection_bound_never_exceeded_witness :
    1 ≤ 1 ∧
      1 ≤ ((["http://a.test/x"] : List String).filter (fun u => is_valid_url u)).length ∧
      ∀ c ∈ (download_urls ["http://a.test/x"] "out" 3 1 false
          (fun _ _ => NetOutcome.netError) [0]
          ⟨true, true, fun _ => true⟩).concurrencySamples, c ≤ 1 :=
  ⟨by decide, by decide,
    C6_connection_bound_never_exceeded ["http://a.test/x"] "out" 3 1 false
      (fun _ _ => NetOutcome.netError) [0] ⟨true, true, fun _ => true⟩
      (by decide) (by decide)⟩

/-- C7 counterexample: `random.choice(USER_AGENTS)` runs once, *before* the
retry loop (kalpak.py line 89), so the User-Agent is NOT rotated per attempt.
With the RNG stream `[0, 1]` — whose successive draws select two *different*
pool entries — a two-attempt invocation sends the agent drawn first on both
attempts. -/
theorem C7_rotation_counterexample :
    ((fetch "http://a.test/x" (fun _ _ => NetOutcome.netError) [0, 1] 2 false).2.map
        Request.userAgent)
      = [(USER_AGENTS.get? 0).getD "", (USER_AGENTS.get? 0).getD ""] ∧
      (USER_AGENTS.get? 1).getD "" ≠ (USER_AGENTS.get? 0).getD "" :=
  ⟨rfl, by decide⟩

/-- C7 amended: each request carries a browser identification value chosen at
random from the fixed pool once per `fetch` invocation, before the retry
loop; every attempt of that invocation reuses this same value (fixed per
invocation, not rotated per attempt). -/
theorem C7_agent_random_but_fixed_per_invocation (url : String)
    (net : Nat → String → NetOutcome) (rng : List Nat) (retries : Nat)
    (resume : Bool) :
    chooseAgent rng ∈ USER_AGENTS ∧
      (fetch url net rng retries resume).2.all
        (fun r => r.userAgent == chooseAgent rng) = true := by
  constructor
  · have hlt : rng.headD 0 % USER_AGENTS.length < USER_AGENTS.length :=
      Nat.mod_lt _ (by decide)
    rcases hg : USER_AGENTS.get? (rng.headD 0 % USER_AGENTS.length) with _ | a
    · exact absurd (List.get?_eq_none.1 hg) (by omega)
    · have : chooseAgent rng = a := by rw [chooseAgent, hg]; rfl
      rw [this]
      exact List.get?_mem hg
  · rw [List.all_eq_true]
    intro r hr
    exact beq_iff_eq.2
      (fetchLoop_userAgent net (chooseAgent rng) resume retries 0 (some url) r hr)

/-- C8: a configured `retries` or `max_connections` below 1 fails
`validate_args`, making `parse_args` exit the process with status 1 before
`download_urls` can run: the aborted run issues no network request. -/
theorem C8_invalid_config_exits_nonzero_before_network (args : Args)
    (urls : List String) (net : Nat → String → NetOutcome) (rng : List Nat)
    (fs : FS) (h : args.retries < 1 ∨ args.max_connections < 1) :
    mainRun args urls net rng fs = Except.error 1 ∧
      networkCallsOf (mainRun args urls net rng fs) = [] := by
  have hv : validate_args args = false := by
    unfold validate_args
    split_ifs with h1 h2
    · rfl
    · rfl
    · omega
  have hm : mainRun args urls net rng fs = Except.error 1 := by
    simp [mainRun, parse_args, hv]
  exact ⟨hm, by rw [hm]; rfl⟩

/-- Witness for C8 at `retries = 0`. -/
theorem C8_invalid_config_exits_nonzero_before_network_witness :
    ((0 : Int) < 1 ∨ (10 : Int) < 1) ∧
      mainRun ⟨0, 10, false, "."⟩ ["http://a.test/x"]
          (fun _ _ => NetOutcome.netError) [0] ⟨true, true, fun _ => true⟩
        = Except.error 1 ∧
      networkCallsOf (mainRun ⟨0, 10, false, "."⟩ ["http://a.test/x"]
          (fun _ _ => NetOutcome.netError) [0] ⟨true, true, fun _ => true⟩) = [] :=
  ⟨Or.inl (by decide),
    C8_invalid_config_exits_nonzero_before_network ⟨0, 10, false, "."⟩
      ["http://a.test/x"] (fun _ _ => NetOutcome.netError) [0]
      ⟨true, true, fun _ => true⟩ (Or.inl (by decide))⟩

/-- C9: persistence failures are isolated.  If the output directory cannot be
created, `save_to_directory` logs the error and returns without raising; when
the directory is available, each entry is written exactly when its *own*
write succeeds — one entry's write failure is logged per item and never
prevents the remaining entries from being written. -/
theorem C9_persistence_errors_isolated (data : List (String × List Nat))
    (output_dir : String) (fs : FS)
    (hkeys : ∀ p ∈ data, ∃ f, get_filename_from_url p.1 = Except.ok f) :
    (fs.dirExists = false → fs.mkdirOk = false →
      save_to_directory data output_dir fs =
        Except.ok ⟨false, ["Failed to create directory " ++ output_dir], []⟩) ∧
    ((fs.dirExists = true ∨ fs.mkdirOk = true) →
      ∃ tr, save_to_directory data output_dir fs = Except.ok tr ∧
        ∀ p ∈ data, ∀ f, get_filename_from_url p.1 = Except.ok f →
          (fs.writeOk (path_join output_dir f) = true →
            (path_join output_dir f, p.2) ∈ tr.written) ∧
          (fs.writeOk (path_join output_dir f) = false →
            ("Failed to save content to " ++ path_join output_dir f) ∈ tr.errors)) := by
  constructor
  · intro h1 h2
    simp [save_to_directory, h1, h2]
  · intro hd
    obtain ⟨w, e, hloop, hmem⟩ := saveLoop_itemwise output_dir fs data hkeys
    have hcond : (!fs.dirExists && !fs.mkdirOk) = false := by
      rcases hd with h | h <;> simp [h]
    exact ⟨⟨!fs.dirExists, e, w⟩, by simp [save_to_directory, hcond, hloop], hmem⟩

/-- Witness for C9: two entries, the write of `out/x.bin` failing while
`out/y.bin` still gets written. -/
theorem C9_persistence_errors_isolated_witness :
    (∀ p ∈ ([("http://a.test/x.bin", [1]), ("http://a.test/y.bin", [2])] :
        List (String × List Nat)), ∃ f, get_filename_from_url p.1 = Except.ok f) ∧
    ((false = false → true = false →
      save_to_directory [("http://a.test/x.bin", [1]), ("http://a.test/y.bin", [2])]
          "out" ⟨false, true, fun p => p != "out/x.bin"⟩ =
        Except.ok ⟨false, ["Failed to create directory " ++ "out"], []⟩) ∧
    ((false = true ∨ true = true) →
      ∃ tr, save_to_directory
          [("http://a.test/x.bin", [1]), ("http://a.test/y.bin", [2])] "out"
          ⟨false, true, fun p => p != "out/x.bin"⟩ = Except.ok tr ∧
        ∀ p ∈ ([("http://a.test/x.bin", [1]), ("http://a.test/y.bin", [2])] :
            List (String × List Nat)),
          ∀ f, get_filename_from_url p.1 = Except.ok f →
            ((fun p => p != "out/x.bin") (path_join "out" f) = true →
              (path_join "out" f, p.2) ∈ tr.written) ∧
            ((fun p => p != "out/x.bin") (path_join "out" f) = false →
              ("Failed to save content to " ++ path_join "out" f) ∈ tr.errors))) := by
  have hkeys : ∀ p ∈ ([("http://a.test/x.bin", [1]), ("http://a.test/y.bin", [2])] :
      List (String × List Nat)), ∃ f, get_filename_from_url p.1 = Except.ok f := by
    intro p hp
    rcases List.mem_cons.1 hp with h | h
    · exact ⟨"x.bin", by rw [h]; rfl⟩
    · rcases List.mem_cons.1 h with h' | h'
      · exact ⟨"y.bin", by rw [h']; rfl⟩
      · exact absurd h' (List.not_mem_nil p)
  exact ⟨hkeys, C9_persistence_errors_isolated
    [("http://a.test/x.bin", [1]), ("http://a.test/y.bin", [2])] "out"
    ⟨false, true, fun p => p != "out/x.bin"⟩ hkeys⟩

end Kalpak









